import Mathlib

/-!
Verification development for the haxball-server match statistics engine.

The definitions below are a shallow embedding of the JavaScript source:
the in-browser room script (haxball.mjs: onGameTick, onTeamGoal,
onGameStop), the stats tracker (stats/index.mjs: handleGameStart,
handleTeamGoal, handleGameStop) and the SQLite store (stats/database.mjs:
getPlayer, updatePlayerStats, saveMatch, createBackup, clearStats,
deleteTestPlayers, deletePlayerStats).

JavaScript numbers that only ever hold nonnegative integers are modelled
as Nat; every Date.now() reading is an explicit Nat parameter named now.
Positions are modelled on an integer grid. The last_seen column is
omitted from the Player row since no property below concerns it.
-/

/-- One recorded ball touch, as pushed onto gameState.lastTouches by
room.onGameTick in haxball.mjs. -/
structure Touch where
  playerId : Nat
  playerAuth : String
  playerName : String
  playerTeam : Nat
  timestamp : Nat
deriving DecidableEq, Repr

/-- Ball position from room.getBallPosition. -/
structure Ball where
  x : Int
  y : Int
deriving DecidableEq, Repr

/-- Player disc position from room.getPlayerDiscProperties. -/
structure Disc where
  x : Int
  y : Int
deriving DecidableEq, Repr

/-- A player's view during one tick of room.getPlayerList: id, name, team,
the auth looked up in gameState.playerAuthMap (none when absent), and the
disc position (none when room.getPlayerDiscProperties returns nothing). -/
structure PlayerSample where
  id : Nat
  name : String
  team : Nat
  auth : Option String
  disc : Option Disc
deriving DecidableEq, Repr

/-- touchRadius = 15 + 10, player radius plus ball radius. -/
def touchRadius : Int := 15 + 10

/-- The source compares Math.sqrt(dx*dx + dy*dy) < touchRadius; on the
integer grid this is compared on squares, which is equivalent because the
square root is strictly monotone. -/
def withinRadius (ball : Ball) (d : Disc) : Bool :=
  decide ((d.x - ball.x) * (d.x - ball.x) + (d.y - ball.y) * (d.y - ball.y)
    < touchRadius * touchRadius)

/-- The push-and-trim step of room.onGameTick: record the touch unless the
immediately preceding recorded touch is by the same player less than the
50 ms debounce ago, then keep only the last 5 entries (shift evicts the
oldest, at index 0). -/
def recordTouch (now : Nat) (touches : List Touch) (pid : Nat)
    (pauth pname : String) (pteam : Nat) : List Touch :=
  let shouldRecord : Bool :=
    match touches.getLast? with
    | none => true
    | some lt => (lt.playerId != pid) || decide (50 < now - lt.timestamp)
  if shouldRecord then
    let pushed := touches ++ [⟨pid, pauth, pname, pteam, now⟩]
    if 5 < pushed.length then pushed.drop 1 else pushed
  else touches

/-- The first player, in room.getPlayerList order, that room.onGameTick
does not skip and finds within the proximity radius: non-spectator, has an
auth mapping, has disc data, and is within touchRadius of the ball. -/
def findToucher (ball : Ball) : List PlayerSample → Option (PlayerSample × String)
  | [] => none
  | p :: rest =>
    if p.team == 0 then findToucher ball rest
    else
      match p.auth with
      | none => findToucher ball rest
      | some a =>
        match p.disc with
        | none => findToucher ball rest
        | some d =>
          if withinRadius ball d then some (p, a) else findToucher ball rest

/-- The player loop of room.onGameTick: skip spectators, players without
auth and players without disc data; on the first player within the touch
radius, record (subject to the debounce) and break out of the loop. -/
def onGameTickLoop (ball : Ball) (now : Nat) (touches : List Touch) :
    List PlayerSample → List Touch
  | [] => touches
  | p :: rest =>
    if p.team == 0 then onGameTickLoop ball now touches rest
    else
      match p.auth with
      | none => onGameTickLoop ball now touches rest
      | some a =>
        match p.disc with
        | none => onGameTickLoop ball now touches rest
        | some d =>
          if withinRadius ball d then recordTouch now touches p.id a p.name p.team
          else onGameTickLoop ball now touches rest

/-- room.onGameTick: a no-op unless the game is running, otherwise one
pass of the player loop over the current touch history. -/
def onGameTick (isGameRunning : Bool) (ball : Ball) (players : List PlayerSample)
    (now : Nat) (touches : List Touch) : List Touch :=
  if isGameRunning then onGameTickLoop ball now touches players else touches

/-- ASSIST_TIME_WINDOW = 3000 ms. -/
def ASSIST_TIME_WINDOW : Nat := 3000

/-- The scorer object built in room.onTeamGoal. -/
structure Scorer where
  auth : String
  name : String
  team : Nat
deriving DecidableEq, Repr

/-- The assister object built in room.onTeamGoal. -/
structure Assister where
  auth : String
  name : String
  isSelf : Bool
deriving DecidableEq, Repr

/-- Goal attribution at the top of room.onTeamGoal: the scorer is taken
from the last touch; the assister candidate is the second-to-last touch,
accepted when timeDiff = now - secondLastTouch.timestamp is within
ASSIST_TIME_WINDOW, the two touches are by different player ids, and the
two touches are by the same team. Here now is the Date.now() reading
taken while the goal is processed. -/
def onTeamGoalAttribution (now team : Nat) (touches : List Touch) :
    Option Scorer × Option Assister :=
  match touches.getLast? with
  | none => (none, none)
  | some lastTouch =>
    let scorer : Scorer := ⟨lastTouch.playerAuth, lastTouch.playerName, lastTouch.playerTeam⟩
    let assister : Option Assister :=
      match touches.dropLast.getLast? with
      | none => none
      | some secondLastTouch =>
        let timeDiff := now - secondLastTouch.timestamp
        let isSamePlayer : Bool := secondLastTouch.playerId == lastTouch.playerId
        let isSameTeam : Bool := secondLastTouch.playerTeam == lastTouch.playerTeam
        if decide (timeDiff ≤ ASSIST_TIME_WINDOW) && !isSamePlayer && isSameTeam then
          some ⟨secondLastTouch.playerAuth, secondLastTouch.playerName, false⟩
        else none
    (some scorer, assister)

/-- One row of the players table (last_seen omitted, see the header). -/
structure Player where
  auth : String
  name : String
  goals : Nat
  assists : Nat
  own_goals : Nat
  games : Nat
  wins : Nat
  losses : Nat
  draws : Nat
  clean_sheets : Nat
  minutes_played : Nat
  current_streak : Nat
  best_streak : Nat
deriving DecidableEq, Repr

/-- One row of the matchRows table. -/
structure MatchRow where
  id : Nat
  score_red : Nat
  score_blue : Nat
  duration : Nat
deriving DecidableEq, Repr

/-- One row of the match_players table. -/
structure MatchPlayerRow where
  match_id : Nat
  player_auth : String
  team : Nat
  goals : Nat
  assists : Nat
deriving DecidableEq, Repr

/-- The relational store: the three tables plus the AUTOINCREMENT
sequence for matchRows.id (which DELETE does not reset). -/
structure Store where
  players : List Player
  matchRows : List MatchRow
  match_players : List MatchPlayerRow
  nextMatchId : Nat
deriving DecidableEq, Repr

/-- SELECT * FROM players WHERE auth = ?. -/
def getPlayer (s : Store) (auth : String) : Option Player :=
  s.players.find? (fun p => p.auth == auth)

/-- The stats object handed to updatePlayerStats: one optional value per
updatable column, none meaning the key is absent from the object. -/
structure StatsUpdate where
  goals : Option Nat
  assists : Option Nat
  own_goals : Option Nat
  games : Option Nat
  wins : Option Nat
  losses : Option Nat
  draws : Option Nat
  clean_sheets : Option Nat
  minutes_played : Option Nat
  current_streak : Option Nat
  best_streak : Option Nat
deriving DecidableEq, Repr

/-- The empty stats object. -/
def emptyUpdate : StatsUpdate :=
  ⟨none, none, none, none, none, none, none, none, none, none, none⟩

/-- The dynamic UPDATE built by updatePlayerStats: every present key is
additive except current_streak and best_streak, which are absolute
overwrites. -/
def applyStatsUpdate (u : StatsUpdate) (p : Player) : Player :=
  { p with
    goals := p.goals + u.goals.getD 0
    assists := p.assists + u.assists.getD 0
    own_goals := p.own_goals + u.own_goals.getD 0
    games := p.games + u.games.getD 0
    wins := p.wins + u.wins.getD 0
    losses := p.losses + u.losses.getD 0
    draws := p.draws + u.draws.getD 0
    clean_sheets := p.clean_sheets + u.clean_sheets.getD 0
    minutes_played := p.minutes_played + u.minutes_played.getD 0
    current_streak := u.current_streak.getD p.current_streak
    best_streak := u.best_streak.getD p.best_streak }

/-- StatsDatabase.updatePlayerStats: a no-op when the player row is
absent, otherwise apply the update to exactly that row. -/
def updatePlayerStats (s : Store) (auth : String) (u : StatsUpdate) : Store :=
  match getPlayer s auth with
  | none => s
  | some _ =>
    { s with players := s.players.map (fun p => if p.auth == auth then applyStatsUpdate u p else p) }

/-- One entry of matchData.players handed to saveMatch. -/
structure MatchPlayerEntry where
  auth : String
  team : Nat
  goals : Nat
  assists : Nat
deriving DecidableEq, Repr

/-- The matchData object handed to saveMatch. -/
structure MatchData where
  scoreRed : Nat
  scoreBlue : Nat
  duration : Nat
  players : List MatchPlayerEntry
deriving DecidableEq, Repr

/-- StatsDatabase.saveMatch: inside one transaction, insert the match row
and one match_players row per entry, all carrying the fresh match id. -/
def saveMatch (s : Store) (md : MatchData) : Store :=
  let matchId := s.nextMatchId
  { s with
    matchRows := s.matchRows ++ [⟨matchId, md.scoreRed, md.scoreBlue, md.duration⟩]
    match_players := s.match_players ++ md.players.map
      (fun pl => ⟨matchId, pl.auth, pl.team, pl.goals, pl.assists⟩)
    nextMatchId := matchId + 1 }

/-- The per-player in-memory tally kept in currentMatch.playerStats. -/
structure PStats where
  goals : Nat
  assists : Nat
  startTime : Nat
deriving DecidableEq, Repr

/-- One snapshotted participant handed to handleGameStart. -/
structure Participant where
  auth : String
  name : String
  team : Nat
deriving DecidableEq, Repr

/-- The tracker's currentMatch working state. -/
structure CurrentMatch where
  startTime : Nat
  players : List Participant
  playerStats : List (String × PStats)
deriving DecidableEq, Repr

/-- The HaxballStatsTracker state: the optional working match plus the
persistent store. -/
structure TrackerState where
  currentMatch : Option CurrentMatch
  store : Store
deriving DecidableEq, Repr

/-- Lookup in the playerStats object by auth key. -/
def lookupStats (l : List (String × PStats)) (a : String) : Option PStats :=
  (l.find? (fun e => e.1 == a)).map (fun e => e.2)

/-- HaxballStatsTracker.handleGameStart: snapshot the participants and
initialize every tally to zero. -/
def handleGameStart (now : Nat) (players : List Participant) : CurrentMatch :=
  { startTime := now
    players := players
    playerStats := players.map (fun p => (p.auth, ⟨0, 0, now⟩)) }

/-- isOwnGoal = scorer.team !== team, as computed both in room.onTeamGoal
and in handleTeamGoal. -/
def isOwnGoal (scorer : Scorer) (team : Nat) : Bool :=
  scorer.team != team

/-- The regular-goal branch of handleTeamGoal: increment the scorer's
in-memory match goal tally when the scorer is a tracked participant. -/
def incGoal (cm : CurrentMatch) (a : String) : CurrentMatch :=
  if (lookupStats cm.playerStats a).isSome then
    let bump := fun (e : String × PStats) =>
      if e.1 == a then (e.1, { e.2 with goals := e.2.goals + 1 }) else e
    { cm with playerStats := cm.playerStats.map bump }
  else cm

/-- The assister branch of handleTeamGoal: increment the assister's
in-memory match assist tally when they are a tracked participant. -/
def incAssist (cm : CurrentMatch) (a : String) : CurrentMatch :=
  if (lookupStats cm.playerStats a).isSome then
    let bump := fun (e : String × PStats) =>
      if e.1 == a then (e.1, { e.2 with assists := e.2.assists + 1 }) else e
    { cm with playerStats := cm.playerStats.map bump }
  else cm

/-- The stats object of the own-goal branch of handleTeamGoal. -/
def ownGoalDelta : StatsUpdate := { emptyUpdate with own_goals := some 1 }

/-- HaxballStatsTracker.handleTeamGoal: a no-op without a current match or
scorer; an own goal updates own_goals in the store immediately and leaves
the in-memory tallies alone, a regular goal bumps the scorer's in-memory
goal tally; independently, a non-self assister's in-memory assist tally is
bumped. -/
def handleTeamGoal (team : Nat) (sc : Option Scorer) (asst : Option Assister)
    (st : TrackerState) : TrackerState :=
  match st.currentMatch with
  | none => st
  | some cm =>
    match sc with
    | none => st
    | some scorer =>
      let cm1 := if isOwnGoal scorer team then cm else incGoal cm scorer.auth
      let store1 :=
        if isOwnGoal scorer team then updatePlayerStats st.store scorer.auth ownGoalDelta
        else st.store
      let cm2 :=
        match asst with
        | none => cm1
        | some a => if a.isSelf then cm1 else incAssist cm1 a.auth
      { currentMatch := some cm2, store := store1 }

/-- The full per-goal pipeline: room.onTeamGoal attribution feeding
statsOnTeamGoal, i.e. handleTeamGoal. -/
def processGoal (now team : Nat) (touches : List Touch) (st : TrackerState) : TrackerState :=
  handleTeamGoal team (onTeamGoalAttribution now team touches).1
    (onTeamGoalAttribution now team touches).2 st

/-- Per-side match outcome. -/
inductive Outcome
  | win
  | loss
  | draw
deriving DecidableEq, Repr, BEq

/-- The outcome pair (red, blue) computed in handleGameStop. -/
def outcomesOf (scoreRed scoreBlue : Nat) : Outcome × Outcome :=
  if scoreBlue < scoreRed then (Outcome.win, Outcome.loss)
  else if scoreRed < scoreBlue then (Outcome.loss, Outcome.win)
  else (Outcome.draw, Outcome.draw)

/-- The updates object built by the updatePlayerMatchStats closure in
handleGameStop. -/
def matchUpdates (duration : Nat) (matchStats : PStats) (player : Player)
    (outcome : Outcome) (cleanSheet : Bool) : StatsUpdate :=
  let base := { emptyUpdate with
    games := some 1
    goals := some matchStats.goals
    assists := some matchStats.assists
    minutes_played := some (duration / 60) }
  let withOutcome :=
    match outcome with
    | Outcome.win =>
      let newStreak := player.current_streak + 1
      let u := { base with wins := some 1, current_streak := some newStreak }
      if player.best_streak < newStreak then { u with best_streak := some newStreak } else u
    | Outcome.loss => { base with losses := some 1, current_streak := some 0 }
    | Outcome.draw => { base with draws := some 1, current_streak := some 0 }
  if cleanSheet then { withOutcome with clean_sheets := some 1 } else withOutcome

/-- The updatePlayerMatchStats closure of handleGameStop: tally from the
start snapshot (zero default), a no-op for a player row that is absent
from the store. -/
def updatePlayerMatchStats (db : Store) (stats : List (String × PStats)) (duration : Nat)
    (playerAuth : String) (outcome : Outcome) (cleanSheet : Bool) : Store :=
  let matchStats := (lookupStats stats playerAuth).getD ⟨0, 0, 0⟩
  match getPlayer db playerAuth with
  | none => db
  | some player => updatePlayerStats db playerAuth (matchUpdates duration matchStats player outcome cleanSheet)

/-- One entry of matchResult.redPlayers / matchResult.bluePlayers. -/
structure AuthName where
  auth : String
  name : String
deriving DecidableEq, Repr

/-- The matchResult object room.onGameStop hands to statsOnGameStop. -/
structure MatchResult where
  scoreRed : Nat
  scoreBlue : Nat
  redPlayers : List AuthName
  bluePlayers : List AuthName
deriving DecidableEq, Repr

/-- The snapshot tally used for the match_players rows in handleGameStop,
defaulting to zero for a player absent from the snapshot. -/
def tallyOf (cm : CurrentMatch) (a : String) : PStats :=
  (lookupStats cm.playerStats a).getD ⟨0, 0, 0⟩

/-- HaxballStatsTracker.handleGameStop: compute duration, outcomes and
clean-sheet flags, update every listed red then blue player's career row,
then commit the match row plus per-player rows and drop the working
state. -/
def handleGameStop (now : Nat) (mr : MatchResult) (st : TrackerState) : TrackerState :=
  match st.currentMatch with
  | none => st
  | some cm =>
    let duration := (now - cm.startTime) / 1000
    let redOutcome := (outcomesOf mr.scoreRed mr.scoreBlue).1
    let blueOutcome := (outcomesOf mr.scoreRed mr.scoreBlue).2
    let redCleanSheet : Bool := (mr.scoreBlue == 0) && (redOutcome == Outcome.win)
    let blueCleanSheet : Bool := (mr.scoreRed == 0) && (blueOutcome == Outcome.win)
    let db1 := mr.redPlayers.foldl
      (fun db pl => updatePlayerMatchStats db cm.playerStats duration pl.auth redOutcome redCleanSheet)
      st.store
    let db2 := mr.bluePlayers.foldl
      (fun db pl => updatePlayerMatchStats db cm.playerStats duration pl.auth blueOutcome blueCleanSheet)
      db1
    let matchPlayers :=
      mr.redPlayers.map (fun pl => MatchPlayerEntry.mk pl.auth 1 (tallyOf cm pl.auth).goals (tallyOf cm pl.auth).assists)
      ++ mr.bluePlayers.map (fun pl => MatchPlayerEntry.mk pl.auth 2 (tallyOf cm pl.auth).goals (tallyOf cm pl.auth).assists)
    let db3 := saveMatch db2 ⟨mr.scoreRed, mr.scoreBlue, duration, matchPlayers⟩
    { currentMatch := none, store := db3 }

/-- The scores object of room.getScores / onTeamVictory. -/
structure Scores where
  red : Nat
  blue : Nat
deriving DecidableEq, Repr

/-- One entry of room.getPlayerList. -/
structure RoomPlayer where
  id : Nat
  name : String
  team : Nat
deriving DecidableEq, Repr

/-- One value of gameState.playerAuthMap. -/
structure AuthData where
  auth : String
  name : String
deriving DecidableEq, Repr

/-- The browser-side gameState of haxball.mjs (matchGoals is omitted: it
only feeds end-of-match announcements). -/
structure BrowserState where
  isGameRunning : Bool
  playerAuthMap : List (Nat × AuthData)
  finalScores : Option Scores
  lastTouches : List Touch
deriving DecidableEq, Repr

/-- The combined browser gameState plus tracker state. -/
structure SystemState where
  browser : BrowserState
  tracker : TrackerState
deriving DecidableEq, Repr

/-- gameState.playerAuthMap lookup by player id. -/
def lookupAuth (m : List (Nat × AuthData)) (pid : Nat) : Option AuthData :=
  (m.find? (fun e => e.1 == pid)).map (fun e => e.2)

/-- The redPlayers / bluePlayers construction of room.onGameStop: current
room players on the given team that still have an auth mapping. -/
def sidePlayers (m : List (Nat × AuthData)) (roomPlayers : List RoomPlayer)
    (team : Nat) : List AuthName :=
  roomPlayers.filterMap (fun p =>
    if p.team == team then (lookupAuth m p.id).map (fun a => AuthName.mk a.auth p.name) else none)

/-- room.onGameStop: guard on isGameRunning; resolve the final score from
gameState.finalScores with room.getScores() (liveScores) as fallback;
when neither is available log a data-quality warning (the returned Bool)
and return without committing; otherwise build the side lists from the
room's current players and hand off to the tracker's handleGameStop. -/
def onGameStop (now : Nat) (roomPlayers : List RoomPlayer) (liveScores : Option Scores)
    (s : SystemState) : SystemState × Bool :=
  if s.browser.isGameRunning then
    let bs := { s.browser with isGameRunning := false }
    let scores :=
      match bs.finalScores with
      | some sc => some sc
      | none => liveScores
    match scores with
    | none => ({ s with browser := bs }, true)
    | some sc =>
      let redPlayers := sidePlayers bs.playerAuthMap roomPlayers 1
      let bluePlayers := sidePlayers bs.playerAuthMap roomPlayers 2
      let mr : MatchResult := ⟨sc.red, sc.blue, redPlayers, bluePlayers⟩
      ({ browser := bs, tracker := handleGameStop now mr s.tracker }, false)
  else (s, false)

/-- One point-in-time backup artifact under data/backups, named by its
Date.now() timestamp and holding a full copy of the store. -/
structure BackupFile where
  timestamp : Nat
  contents : Store
deriving DecidableEq, Repr

/-- The store file together with its sibling backups directory. -/
structure DbState where
  store : Store
  backups : List BackupFile
deriving DecidableEq, Repr

/-- StatsDatabase.createBackup: copy the whole store into a timestamped
backup. A file-system failure (the thrown exception, which the callers
let propagate) is modelled by the ok flag: none means the exception
propagated before any mutation. -/
def createBackup (now : Nat) (ok : Bool) (d : DbState) : Option DbState :=
  if ok then some { d with backups := d.backups ++ [⟨now, d.store⟩] } else none

/-- The transaction body of clearStats: delete every row of the three
tables (the AUTOINCREMENT sequence is not reset by DELETE). -/
def clearStatsTx (s : Store) : Store :=
  { s with players := [], matchRows := [], match_players := [] }

/-- StatsDatabase.clearStats: backup first; only when the backup
succeeded, run the clearing transaction. -/
def clearStats (now : Nat) (ok : Bool) (d : DbState) : DbState × Option Unit :=
  match createBackup now ok d with
  | none => (d, none)
  | some d1 => ({ d1 with store := clearStatsTx d1.store }, some ())

/-- ASCII case folding on character codes; SQLite folds only the ASCII
range in LIKE and LOWER. -/
def lowerNat (c : Char) : Nat :=
  if 65 ≤ c.toNat && c.toNat ≤ 90 then c.toNat + 32 else c.toNat

/-- SQLite LIKE matching for the pattern used by deleteTestPlayers: three
single-character wildcards, the literal letters t e s t, then anything.
SQLite LIKE is case-insensitive on ASCII letters, hence the folding. -/
def likeTestName (name : String) : Bool :=
  decide (7 ≤ name.data.length) &&
    (((name.data.drop 3).take 4).map lowerNat == "test".data.map lowerNat)

/-- The transaction body of deleteTestPlayers: collect the auths of the
matching players, return 0 leaving everything unchanged when there are
none; otherwise delete their match_players rows, delete the matchRows whose
remaining rows join no non-matching player (the LEFT-JOIN HAVING query),
delete the players, and return how many players matched. -/
def deleteTestTx (s : Store) : Store × Nat :=
  let testPlayers := s.players.filter (fun p => likeTestName p.name)
  if testPlayers.length == 0 then (s, 0)
  else
    let testAuths := testPlayers.map (fun p => p.auth)
    let mp1 := s.match_players.filter (fun r => !(testAuths.contains r.player_auth))
    let isNonTestRow : MatchPlayerRow → Bool := fun r =>
      match s.players.find? (fun p => p.auth == r.player_auth) with
      | some p => !(likeTestName p.name)
      | none => false
    let matches1 := s.matchRows.filter (fun m => (mp1.filter (fun r => r.match_id == m.id)).any isNonTestRow)
    let players1 := s.players.filter (fun p => !(testAuths.contains p.auth))
    ({ s with players := players1, matchRows := matches1, match_players := mp1 }, testPlayers.length)

/-- StatsDatabase.deleteTestPlayers: backup first; only when the backup
succeeded, run the deletion transaction and return its count. -/
def deleteTestPlayers (now : Nat) (ok : Bool) (d : DbState) : DbState × Option Nat :=
  match createBackup now ok d with
  | none => (d, none)
  | some d1 => ({ d1 with store := (deleteTestTx d1.store).1 }, some (deleteTestTx d1.store).2)

/-- LOWER(name) = LOWER(?) comparison of deletePlayerStats. -/
def lowerEq (a b : String) : Bool := a.data.map lowerNat == b.data.map lowerNat

/-- The transaction body of deletePlayerStats: find the player by
case-insensitive name, return null when absent; otherwise delete their
match_players rows, delete the matchRows left with no rows at all, and
delete the player row. -/
def deletePlayerTx (s : Store) (playerName : String) : Store × Option String :=
  match s.players.find? (fun p => lowerEq p.name playerName) with
  | none => (s, none)
  | some player =>
    let mp1 := s.match_players.filter (fun r => r.player_auth != player.auth)
    let matches1 := s.matchRows.filter (fun m => (mp1.filter (fun r => r.match_id == m.id)).length != 0)
    let players1 := s.players.filter (fun p => p.auth != player.auth)
    ({ s with players := players1, matchRows := matches1, match_players := mp1 }, some playerName)

/-- StatsDatabase.deletePlayerStats: backup first; only when the backup
succeeded, run the deletion transaction. -/
def deletePlayerStats (now : Nat) (ok : Bool) (playerName : String) (d : DbState) :
    DbState × Option (Option String) :=
  match createBackup now ok d with
  | none => (d, none)
  | some d1 => ({ d1 with store := (deletePlayerTx d1.store playerName).1 },
      some (deletePlayerTx d1.store playerName).2)

/-! Concrete scenario states used by the witnesses and counterexamples
below. -/

def drawDemoState : TrackerState :=
  ⟨some (handleGameStart 0 [⟨"a", "A", 1⟩, ⟨"b", "B", 2⟩]),
    ⟨[⟨"a", "A", 0, 0, 0, 0, 0, 0, 0, 0, 0, 0, 0⟩,
      ⟨"b", "B", 0, 0, 0, 0, 0, 0, 0, 0, 0, 0, 0⟩], [], [], 1⟩⟩

def leaveDemoSys : SystemState :=
  ⟨⟨true, [(2, ⟨"b", "B"⟩)], some ⟨1, 0⟩, []⟩,
    ⟨some (handleGameStart 0 [⟨"a", "A", 1⟩, ⟨"b", "B", 1⟩]),
      ⟨[⟨"a", "A", 0, 0, 0, 0, 0, 0, 0, 0, 0, 0, 0⟩,
        ⟨"b", "B", 0, 0, 0, 0, 0, 0, 0, 0, 0, 0, 0⟩], [], [], 1⟩⟩⟩

def runningDemoSys : SystemState := ⟨⟨true, [], some ⟨2, 1⟩, []⟩, ⟨none, ⟨[], [], [], 1⟩⟩⟩

def runningNoScoreSys : SystemState := ⟨⟨true, [], none, []⟩, ⟨none, ⟨[], [], [], 1⟩⟩⟩

def ogDemoState : TrackerState :=
  ⟨some (handleGameStart 0 [⟨"a", "A", 1⟩]),
    ⟨[⟨"a", "A", 0, 0, 0, 0, 0, 0, 0, 0, 0, 0, 0⟩], [], [], 1⟩⟩

def invDemoPlayer : Player := ⟨"a", "A", 3, 2, 0, 5, 2, 2, 1, 1, 10, 1, 2⟩

def invDemoStore : Store := ⟨[invDemoPlayer], [], [], 1⟩

def purgeDemoDb : DbState :=
  ⟨⟨[⟨"t1", "abctest", 0, 0, 0, 0, 0, 0, 0, 0, 0, 0, 0⟩,
      ⟨"u1", "Bob", 0, 0, 0, 0, 0, 0, 0, 0, 0, 0, 0⟩],
    [⟨1, 1, 0, 60⟩],
    [⟨1, "t1", 1, 0, 0⟩, ⟨1, "u1", 2, 0, 0⟩], 2⟩, []⟩

/-! Helper lemmas. -/

theorem applyStatsUpdate_auth (u : StatsUpdate) (p : Player) :
    (applyStatsUpdate u p).auth = p.auth := rfl

theorem find_map_update_self (l : List Player) (a : String) (u : StatsUpdate) (p : Player)
    (h : l.find? (fun q => q.auth == a) = some p) :
    (l.map (fun q => if q.auth == a then applyStatsUpdate u q else q)).find?
      (fun q => q.auth == a) = some (applyStatsUpdate u p) := by
  induction l with
  | nil => simp at h
  | cons q l ih =>
    rw [List.map_cons]
    by_cases hq : q.auth = a
    · rw [List.find?_cons_of_pos _ (by simpa using hq)] at h
      injection h with h
      subst h
      have hhead : (if q.auth == a then applyStatsUpdate u q else q) = applyStatsUpdate u q := by
        simp [hq]
      rw [hhead, List.find?_cons_of_pos _ (by simp [applyStatsUpdate_auth, hq])]
    · rw [List.find?_cons_of_neg _ (by simpa using hq)] at h
      have hhead : (if q.auth == a then applyStatsUpdate u q else q) = q := by simp [hq]
      rw [hhead, List.find?_cons_of_neg _ (by simpa using hq)]
      exact ih h

theorem find_map_update_ne (l : List Player) (a b : String) (hab : a ≠ b) (u : StatsUpdate) :
    (l.map (fun q => if q.auth == b then applyStatsUpdate u q else q)).find?
      (fun q => q.auth == a) = l.find? (fun q => q.auth == a) := by
  induction l with
  | nil => simp
  | cons q l ih =>
    rw [List.map_cons]
    by_cases hqb : q.auth = b
    · have hhead : (if q.auth == b then applyStatsUpdate u q else q) = applyStatsUpdate u q := by
        simp [hqb]
      have hqa : ¬ q.auth = a := fun h => hab (h ▸ hqb)
      rw [hhead, List.find?_cons_of_neg _ (by simp [applyStatsUpdate_auth, hqa]),
        List.find?_cons_of_neg _ (by simpa using hqa), ih]
    · have hhead : (if q.auth == b then applyStatsUpdate u q else q) = q := by simp [hqb]
      rw [hhead]
      by_cases hqa : q.auth = a
      · rw [List.find?_cons_of_pos _ (by simpa using hqa),
          List.find?_cons_of_pos _ (by simpa using hqa)]
      · rw [List.find?_cons_of_neg _ (by simpa using hqa),
          List.find?_cons_of_neg _ (by simpa using hqa), ih]

theorem getPlayer_update_self (s : Store) (a : String) (u : StatsUpdate) (p : Player)
    (h : getPlayer s a = some p) :
    getPlayer (updatePlayerStats s a u) a = some (applyStatsUpdate u p) := by
  unfold updatePlayerStats
  rw [h]
  exact find_map_update_self s.players a u p h

theorem getPlayer_update_ne (s : Store) (a b : String) (u : StatsUpdate) (hab : a ≠ b) :
    getPlayer (updatePlayerStats s b u) a = getPlayer s a := by
  unfold updatePlayerStats
  cases hb : getPlayer s b with
  | none => rfl
  | some q => exact find_map_update_ne s.players a b hab u

theorem updatePlayerStats_matchRows (s : Store) (a : String) (u : StatsUpdate) :
    (updatePlayerStats s a u).matchRows = s.matchRows := by
  unfold updatePlayerStats
  cases getPlayer s a <;> rfl

theorem updatePlayerStats_match_players (s : Store) (a : String) (u : StatsUpdate) :
    (updatePlayerStats s a u).match_players = s.match_players := by
  unfold updatePlayerStats
  cases getPlayer s a <;> rfl

theorem updatePlayerStats_nextMatchId (s : Store) (a : String) (u : StatsUpdate) :
    (updatePlayerStats s a u).nextMatchId = s.nextMatchId := by
  unfold updatePlayerStats
  cases getPlayer s a <;> rfl

theorem updatePlayerMatchStats_matchRows (db : Store) (stats : List (String × PStats))
    (dur : Nat) (a : String) (o : Outcome) (cs : Bool) :
    (updatePlayerMatchStats db stats dur a o cs).matchRows = db.matchRows := by
  unfold updatePlayerMatchStats
  cases getPlayer db a
  · rfl
  · exact updatePlayerStats_matchRows _ _ _

theorem updatePlayerMatchStats_match_players (db : Store) (stats : List (String × PStats))
    (dur : Nat) (a : String) (o : Outcome) (cs : Bool) :
    (updatePlayerMatchStats db stats dur a o cs).match_players = db.match_players := by
  unfold updatePlayerMatchStats
  cases getPlayer db a
  · rfl
  · exact updatePlayerStats_match_players _ _ _

theorem updatePlayerMatchStats_nextMatchId (db : Store) (stats : List (String × PStats))
    (dur : Nat) (a : String) (o : Outcome) (cs : Bool) :
    (updatePlayerMatchStats db stats dur a o cs).nextMatchId = db.nextMatchId := by
  unfold updatePlayerMatchStats
  cases getPlayer db a
  · rfl
  · exact updatePlayerStats_nextMatchId _ _ _

theorem foldl_ums_matchRows (l : List AuthName) (stats : List (String × PStats))
    (dur : Nat) (o : Outcome) (cs : Bool) (db : Store) :
    (l.foldl (fun db pl => updatePlayerMatchStats db stats dur pl.auth o cs) db).matchRows
      = db.matchRows := by
  induction l generalizing db with
  | nil => rfl
  | cons x l ih => rw [List.foldl_cons, ih, updatePlayerMatchStats_matchRows]

theorem foldl_ums_match_players (l : List AuthName) (stats : List (String × PStats))
    (dur : Nat) (o : Outcome) (cs : Bool) (db : Store) :
    (l.foldl (fun db pl => updatePlayerMatchStats db stats dur pl.auth o cs) db).match_players
      = db.match_players := by
  induction l generalizing db with
  | nil => rfl
  | cons x l ih => rw [List.foldl_cons, ih, updatePlayerMatchStats_match_players]

theorem foldl_ums_nextMatchId (l : List AuthName) (stats : List (String × PStats))
    (dur : Nat) (o : Outcome) (cs : Bool) (db : Store) :
    (l.foldl (fun db pl => updatePlayerMatchStats db stats dur pl.auth o cs) db).nextMatchId
      = db.nextMatchId := by
  induction l generalizing db with
  | nil => rfl
  | cons x l ih => rw [List.foldl_cons, ih, updatePlayerMatchStats_nextMatchId]

theorem getPlayer_saveMatch (s : Store) (md : MatchData) (a : String) :
    getPlayer (saveMatch s md) a = getPlayer s a := rfl

/-- Claim C8: every destructive operation (clear-all stats, purge of
test/synthetic players, deletion of one player's history) first produces a
full point-in-time backup of the store; when the backup step fails the
deletion does not proceed and the store is unchanged, and when it succeeds
the whole transaction is applied to the backed-up state, so each operation
either fully applies or not at all. -/
theorem destructive_ops_backup_guarded (now : Nat) (pname : String) (d : DbState) :
    clearStats now false d = (d, none) ∧
    deleteTestPlayers now false d = (d, none) ∧
    deletePlayerStats now false pname d = (d, none) ∧
    clearStats now true d
      = (⟨clearStatsTx d.store, d.backups ++ [⟨now, d.store⟩]⟩, some ()) ∧
    deleteTestPlayers now true d
      = (⟨(deleteTestTx d.store).1, d.backups ++ [⟨now, d.store⟩]⟩, some (deleteTestTx d.store).2) ∧
    deletePlayerStats now true pname d
      = (⟨(deletePlayerTx d.store pname).1, d.backups ++ [⟨now, d.store⟩]⟩,
          some (deletePlayerTx d.store pname).2) := by
  refine ⟨rfl, rfl, rfl, rfl, rfl, rfl⟩

theorem contains_testAuths_eq (l : List Player) (hnd : (l.map Player.auth).Nodup)
    (p : Player) (hp : p ∈ l) :
    ((l.filter (fun q => likeTestName q.name)).map Player.auth).contains p.auth
      = likeTestName p.name := by
  by_cases h : likeTestName p.name = true
  · rw [h]
    simp only [List.contains_eq_any_beq, List.any_eq_true]
    exact ⟨p.auth, List.mem_map_of_mem _ (List.mem_filter.mpr ⟨hp, h⟩), by simp⟩
  · have h' : likeTestName p.name = false := Bool.eq_false_iff.mpr h
    rw [h']
    rw [Bool.eq_false_iff]
    intro hc
    have hc' : p.auth ∈ (l.filter (fun q => likeTestName q.name)).map Player.auth := by
      simpa using hc
    obtain ⟨q, hq, hqa⟩ := List.mem_map.mp hc'
    obtain ⟨hql, hqt⟩ := List.mem_filter.mp hq
    have hqp : q = p := List.inj_on_of_nodup_map hnd hql hp hqa
    subst hqp
    exact h hqt

theorem deleteTestTx_players (s : Store) (hnd : (s.players.map Player.auth).Nodup) :
    (deleteTestTx s).1.players = s.players.filter (fun p => !(likeTestName p.name)) := by
  unfold deleteTestTx
  by_cases h : ((s.players.filter (fun p => likeTestName p.name)).length == 0) = true
  · rw [if_pos h]
    have hnil : s.players.filter (fun p => likeTestName p.name) = [] := by simpa using h
    rw [eq_comm, List.filter_eq_self]
    intro p hp
    simpa using List.filter_eq_nil_iff.mp hnil p hp
  · rw [if_neg h]
    exact List.filter_congr fun p hp => by rw [contains_testAuths_eq s.players hnd p hp]

theorem deleteTestTx_match_players (s : Store) :
    (deleteTestTx s).1.match_players
      = s.match_players.filter
          (fun r => !(((s.players.filter (fun p => likeTestName p.name)).map Player.auth).contains r.player_auth)) := by
  unfold deleteTestTx
  by_cases h : ((s.players.filter (fun p => likeTestName p.name)).length == 0) = true
  · rw [if_pos h]
    have hnil : s.players.filter (fun p => likeTestName p.name) = [] := by simpa using h
    rw [hnil]
    simp
  · rw [if_neg h]

theorem deleteTestTx_count (s : Store) :
    (deleteTestTx s).2 = (s.players.filter (fun p => likeTestName p.name)).length := by
  unfold deleteTestTx
  by_cases h : ((s.players.filter (fun p => likeTestName p.name)).length == 0) = true
  · rw [if_pos h]
    have hnil : s.players.filter (fun p => likeTestName p.name) = [] := by simpa using h
    simp [hnil]
  · rw [if_neg h]

theorem deleteTestTx_no_match (s : Store)
    (h : s.players.filter (fun p => likeTestName p.name) = []) :
    deleteTestTx s = (s, 0) := by
  unfold deleteTestTx
  rw [if_pos (by simp [h])]

/-- Claim C10: given the schema invariant that auth is a primary key, the
synthetic-player purge deletes exactly the players whose name matches the
LIKE pattern of three single-character wildcards followed by the letters
t e s t (a name such as abctest is deleted even though it does not begin
with the literal three-underscore prefix), deletes their match_players
rows, and returns the count of matching players; when none match it
returns 0 and leaves the store unchanged. -/
theorem test_player_purge (now : Nat) (d : DbState)
    (hnd : (d.store.players.map Player.auth).Nodup) :
    likeTestName "abctest" = true ∧
    (("abctest".data.take 7) == "___test".data) = false ∧
    (deleteTestPlayers now true d).1.store.players
      = d.store.players.filter (fun p => !(likeTestName p.name)) ∧
    (deleteTestPlayers now true d).1.store.match_players
      = d.store.match_players.filter
          (fun r => !(((d.store.players.filter (fun p => likeTestName p.name)).map Player.auth).contains r.player_auth)) ∧
    (deleteTestPlayers now true d).2
      = some (d.store.players.filter (fun p => likeTestName p.name)).length ∧
    (d.store.players.filter (fun p => likeTestName p.name) = [] →
      (deleteTestPlayers now true d).1.store = d.store ∧
        (deleteTestPlayers now true d).2 = some 0) := by
  have hstore : (deleteTestPlayers now true d).1.store = (deleteTestTx d.store).1 := rfl
  have hcount : (deleteTestPlayers now true d).2 = some (deleteTestTx d.store).2 := rfl
  refine ⟨by decide, by decide, ?_, ?_, ?_, ?_⟩
  · rw [hstore, deleteTestTx_players d.store hnd]
  · rw [hstore, deleteTestTx_match_players d.store]
  · rw [hcount, deleteTestTx_count d.store]
  · intro hnil
    rw [hstore, hcount, deleteTestTx_no_match d.store hnil]
    exact ⟨rfl, rfl⟩

theorem matchUpdates_fields (dur : Nat) (ms : PStats) (pl : Player) (o : Outcome) (cs : Bool) :
    (matchUpdates dur ms pl o cs).games = some 1 ∧
    (matchUpdates dur ms pl o cs).wins = (if o = Outcome.win then some 1 else none) ∧
    (matchUpdates dur ms pl o cs).losses = (if o = Outcome.loss then some 1 else none) ∧
    (matchUpdates dur ms pl o cs).draws = (if o = Outcome.draw then some 1 else none) := by
  rcases o <;> simp [matchUpdates, emptyUpdate] <;> (repeat' split) <;> simp

/-- Claim C9: one committed match update adds exactly 1 to games and
exactly 1 to exactly one of wins, losses or draws (by outcome), so a
player row satisfying games = wins + losses + draws before the commit
satisfies it afterwards. -/
theorem stats_sum_preserved (db : Store) (stats : List (String × PStats)) (duration : Nat)
    (a : String) (outcome : Outcome) (cs : Bool) (p : Player)
    (hp : getPlayer db a = some p)
    (hinv : p.games = p.wins + p.losses + p.draws) :
    ∃ q, getPlayer (updatePlayerMatchStats db stats duration a outcome cs) a = some q ∧
      q.games = p.games + 1 ∧
      ((q.wins = p.wins + 1 ∧ q.losses = p.losses ∧ q.draws = p.draws) ∨
        (q.wins = p.wins ∧ q.losses = p.losses + 1 ∧ q.draws = p.draws) ∨
        (q.wins = p.wins ∧ q.losses = p.losses ∧ q.draws = p.draws + 1)) ∧
      q.games = q.wins + q.losses + q.draws := by
  have hm : updatePlayerMatchStats db stats duration a outcome cs
      = updatePlayerStats db a
          (matchUpdates duration ((lookupStats stats a).getD ⟨0, 0, 0⟩) p outcome cs) := by
    unfold updatePlayerMatchStats
    rw [hp]
  obtain ⟨hg, hw, hl, hd⟩ :=
    matchUpdates_fields duration ((lookupStats stats a).getD ⟨0, 0, 0⟩) p outcome cs
  refine ⟨_, by rw [hm]; exact getPlayer_update_self db a _ p hp, ?_, ?_, ?_⟩
  · simp [applyStatsUpdate, hg]
  · rcases outcome <;> simp [applyStatsUpdate, hw, hl, hd]
  · rcases outcome <;> simp [applyStatsUpdate, hg, hw, hl, hd] <;> omega

theorem getPlayer_ums_ne (db : Store) (stats : List (String × PStats)) (dur : Nat)
    (x : String) (o : Outcome) (cs : Bool) (a : String) (hax : a ≠ x) :
    getPlayer (updatePlayerMatchStats db stats dur x o cs) a = getPlayer db a := by
  unfold updatePlayerMatchStats
  cases getPlayer db x
  · rfl
  · exact getPlayer_update_ne db a x _ hax

theorem getPlayer_ums_self (db : Store) (stats : List (String × PStats)) (dur : Nat)
    (a : String) (o : Outcome) (cs : Bool) (p : Player) (hp : getPlayer db a = some p) :
    getPlayer (updatePlayerMatchStats db stats dur a o cs) a
      = some (applyStatsUpdate (matchUpdates dur ((lookupStats stats a).getD ⟨0, 0, 0⟩) p o cs) p) := by
  unfold updatePlayerMatchStats
  rw [hp]
  exact getPlayer_update_self db a _ p hp

theorem applyDraw_fields (dur : Nat) (ms : PStats) (pl : Player) :
    (applyStatsUpdate (matchUpdates dur ms pl Outcome.draw false) pl).draws = pl.draws + 1 ∧
    (applyStatsUpdate (matchUpdates dur ms pl Outcome.draw false) pl).clean_sheets = pl.clean_sheets ∧
    (applyStatsUpdate (matchUpdates dur ms pl Outcome.draw false) pl).games = pl.games + 1 := by
  simp [applyStatsUpdate, matchUpdates, emptyUpdate]

/-- Claim C2 counterexample: in a concrete completed 0-0 match, the commit
happens (each participant's draws becomes 1) but clean_sheets stays 0 for
the participants of both sides, so it is not incremented by 1 as claimed. -/
theorem zero_zero_clean_sheet_cex :
    ((getPlayer (handleGameStop 61000 ⟨0, 0, [⟨"a", "A"⟩], [⟨"b", "B"⟩]⟩ drawDemoState).store
        "a").map Player.draws = some 1) ∧
    ((getPlayer (handleGameStop 61000 ⟨0, 0, [⟨"a", "A"⟩], [⟨"b", "B"⟩]⟩ drawDemoState).store
        "a").map Player.clean_sheets = some 0) ∧
    ((getPlayer (handleGameStop 61000 ⟨0, 0, [⟨"a", "A"⟩], [⟨"b", "B"⟩]⟩ drawDemoState).store
        "b").map Player.draws = some 1) ∧
    ((getPlayer (handleGameStop 61000 ⟨0, 0, [⟨"a", "A"⟩], [⟨"b", "B"⟩]⟩ drawDemoState).store
        "b").map Player.clean_sheets = some 0) ∧
    ((getPlayer drawDemoState.store "a").map Player.clean_sheets = some 0) := by
  decide

theorem foldl_ums_getPlayer_not_mem (l : List AuthName) (stats : List (String × PStats))
    (dur : Nat) (o : Outcome) (cs : Bool) :
    ∀ (db : Store) (a : String), a ∉ l.map AuthName.auth →
      getPlayer (l.foldl (fun db pl => updatePlayerMatchStats db stats dur pl.auth o cs) db) a
        = getPlayer db a := by
  induction l with
  | nil =>
    intro db a _
    rfl
  | cons x l ih =>
    intro db a hna
    rw [List.map_cons, List.mem_cons] at hna
    push_neg at hna
    rw [List.foldl_cons, ih _ a hna.2, getPlayer_ums_ne db stats dur x.auth o cs a hna.1]

theorem foldl_ums_getPlayer_mem_once (l : List AuthName) (stats : List (String × PStats))
    (dur : Nat) (o : Outcome) (cs : Bool) :
    ∀ (db : Store) (a : String) (p : Player), (l.map AuthName.auth).Nodup →
      a ∈ l.map AuthName.auth → getPlayer db a = some p →
      getPlayer (l.foldl (fun db pl => updatePlayerMatchStats db stats dur pl.auth o cs) db) a
        = some (applyStatsUpdate
            (matchUpdates dur ((lookupStats stats a).getD ⟨0, 0, 0⟩) p o cs) p) := by
  induction l with
  | nil =>
    intro db a p _ ha _
    simp at ha
  | cons x l ih =>
    intro db a p hnd ha hp
    rw [List.map_cons] at hnd ha
    rw [List.foldl_cons]
    by_cases hax : a = x.auth
    · subst hax
      have hrest : x.auth ∉ l.map AuthName.auth := (List.nodup_cons.mp hnd).1
      rw [foldl_ums_getPlayer_not_mem l stats dur o cs _ x.auth hrest]
      exact getPlayer_ums_self db stats dur x.auth o cs p hp
    · have ha2 : a ∈ l.map AuthName.auth := by
        rcases List.mem_cons.mp ha with h | h
        · exact absurd h hax
        · exact h
      have hp2 : getPlayer (updatePlayerMatchStats db stats dur x.auth o cs) a = some p := by
        rw [getPlayer_ums_ne db stats dur x.auth o cs a hax]
        exact hp
      exact ih _ a p (List.nodup_cons.mp hnd).2 ha2 hp2

/-- Claim C2 (amended): for every completed match that ends 0-0 and every
participant of either side (the room hands over rosters with distinct
identities), draws and games are each incremented by 1 while clean_sheets
is left unchanged: the code credits a clean sheet to a side iff the
opponent's score is zero and that side's outcome is a win, and a 0-0
match is a draw for both sides. -/
theorem zero_zero_draw_stats (now : Nat) (st : TrackerState) (cm : CurrentMatch)
    (hcm : st.currentMatch = some cm)
    (mr : MatchResult) (h0r : mr.scoreRed = 0) (h0b : mr.scoreBlue = 0)
    (hnd : ((mr.redPlayers ++ mr.bluePlayers).map AuthName.auth).Nodup)
    (a : String) (ha : a ∈ (mr.redPlayers ++ mr.bluePlayers).map AuthName.auth)
    (p : Player) (hp : getPlayer st.store a = some p) :
    (((mr.scoreBlue == 0) && ((outcomesOf mr.scoreRed mr.scoreBlue).1 == Outcome.win))
      = false) ∧
    (((mr.scoreRed == 0) && ((outcomesOf mr.scoreRed mr.scoreBlue).2 == Outcome.win))
      = false) ∧
    ∃ p2, getPlayer (handleGameStop now mr st).store a = some p2 ∧
      p2.draws = p.draws + 1 ∧ p2.clean_sheets = p.clean_sheets ∧ p2.games = p.games + 1 := by
  refine ⟨by rw [h0r, h0b]; decide, by rw [h0r, h0b]; decide, ?_⟩
  have hmain : getPlayer (handleGameStop now mr st).store a
      = getPlayer
          (mr.bluePlayers.foldl (fun db pl => updatePlayerMatchStats db cm.playerStats
              ((now - cm.startTime) / 1000) pl.auth Outcome.draw false)
            (mr.redPlayers.foldl (fun db pl => updatePlayerMatchStats db cm.playerStats
                ((now - cm.startTime) / 1000) pl.auth Outcome.draw false)
              st.store)) a := by
    unfold handleGameStop
    rw [hcm]
    dsimp only
    rw [h0r, h0b]
    rfl
  rw [List.map_append] at hnd ha
  obtain ⟨hndr, hndb, hdisj⟩ := List.nodup_append.mp hnd
  obtain ⟨hd, hc, hg⟩ := applyDraw_fields ((now - cm.startTime) / 1000)
    ((lookupStats cm.playerStats a).getD ⟨0, 0, 0⟩) p
  rcases List.mem_append.mp ha with har | hablue
  · have h1 : getPlayer (mr.redPlayers.foldl (fun db pl => updatePlayerMatchStats db
        cm.playerStats ((now - cm.startTime) / 1000) pl.auth Outcome.draw false) st.store) a
        = some (applyStatsUpdate
            (matchUpdates ((now - cm.startTime) / 1000)
              ((lookupStats cm.playerStats a).getD ⟨0, 0, 0⟩) p Outcome.draw false) p) :=
      foldl_ums_getPlayer_mem_once mr.redPlayers cm.playerStats ((now - cm.startTime) / 1000)
        Outcome.draw false st.store a p hndr har hp
    have h2 : a ∉ mr.bluePlayers.map AuthName.auth := hdisj har
    rw [hmain, foldl_ums_getPlayer_not_mem mr.bluePlayers cm.playerStats
        ((now - cm.startTime) / 1000) Outcome.draw false _ a h2, h1]
    exact ⟨_, rfl, hd, hc, hg⟩
  · have h2 : a ∉ mr.redPlayers.map AuthName.auth := fun h => hdisj h hablue
    have h1 : getPlayer (mr.redPlayers.foldl (fun db pl => updatePlayerMatchStats db
        cm.playerStats ((now - cm.startTime) / 1000) pl.auth Outcome.draw false) st.store) a
        = some p := by
      rw [foldl_ums_getPlayer_not_mem mr.redPlayers cm.playerStats
        ((now - cm.startTime) / 1000) Outcome.draw false st.store a h2]
      exact hp
    rw [hmain, foldl_ums_getPlayer_mem_once mr.bluePlayers cm.playerStats
        ((now - cm.startTime) / 1000) Outcome.draw false _ a p hndb hablue h1]
    exact ⟨_, rfl, hd, hc, hg⟩

/-- Witness for the amended 0-0 draw behavior at a concrete two-player
match: participant a starts at zero and ends with one draw, one game and
zero clean sheets. -/
theorem zero_zero_draw_stats_witness :
    drawDemoState.currentMatch = some (handleGameStart 0 [⟨"a", "A", 1⟩, ⟨"b", "B", 2⟩]) ∧
    (⟨0, 0, [⟨"a", "A"⟩], [⟨"b", "B"⟩]⟩ : MatchResult).scoreRed = 0 ∧
    (⟨0, 0, [⟨"a", "A"⟩], [⟨"b", "B"⟩]⟩ : MatchResult).scoreBlue = 0 ∧
    ((([⟨"a", "A"⟩] ++ [⟨"b", "B"⟩] : List AuthName).map AuthName.auth).Nodup) ∧
    ("a" ∈ ([⟨"a", "A"⟩] ++ [⟨"b", "B"⟩] : List AuthName).map AuthName.auth) ∧
    getPlayer drawDemoState.store "a" = some ⟨"a", "A", 0, 0, 0, 0, 0, 0, 0, 0, 0, 0, 0⟩ ∧
    (((((0 : Nat) == 0) && ((outcomesOf 0 0).1 == Outcome.win)) = false) ∧
      ((((0 : Nat) == 0) && ((outcomesOf 0 0).2 == Outcome.win)) = false) ∧
      ∃ p2, getPlayer (handleGameStop 61000 ⟨0, 0, [⟨"a", "A"⟩], [⟨"b", "B"⟩]⟩
          drawDemoState).store "a" = some p2 ∧
        p2.draws = 0 + 1 ∧ p2.clean_sheets = 0 ∧ p2.games = 0 + 1) :=
  ⟨rfl, rfl, rfl, by decide, by decide, by decide,
    zero_zero_draw_stats 61000 drawDemoState (handleGameStart 0 [⟨"a", "A", 1⟩, ⟨"b", "B", 2⟩])
      rfl ⟨0, 0, [⟨"a", "A"⟩], [⟨"b", "B"⟩]⟩ rfl rfl (by decide) "a" (by decide)
      ⟨"a", "A", 0, 0, 0, 0, 0, 0, 0, 0, 0, 0, 0⟩ (by decide)⟩

/-- Claim C3 counterexample: player a is snapshotted as a participant at
match start, then leaves before the stop (absent from the stop-time room
list and auth map); at the stop only player b gets a performance row and
a's career row is untouched (games still 0), so the snapshotted leaver is
not committed as the claim states. -/
theorem snapshot_commit_cex :
    ((lookupStats (handleGameStart 0 [⟨"a", "A", 1⟩, ⟨"b", "B", 1⟩]).playerStats "a").isSome
      = true) ∧
    ((onGameStop 61000 [⟨2, "B", 1⟩] none leaveDemoSys).1.tracker.store.match_players.map
        MatchPlayerRow.player_auth = ["b"]) ∧
    ((getPlayer (onGameStop 61000 [⟨2, "B", 1⟩] none leaveDemoSys).1.tracker.store "a").map
        Player.games = some 0) := by
  decide

/-- Claim C3 (amended): at the stop the committed side lists are the ones
handed over by room.onGameStop (built from the players still in the room
with a resolvable identity, with their team at stop time); exactly those
players receive match_players rows, each carrying the goal/assist tally
recorded in the start snapshot (zero when absent from the snapshot), so a
snapshotted participant who left the room before the stop is excluded. -/
theorem stop_commit_rows (now : Nat) (mr : MatchResult) (st : TrackerState) (cm : CurrentMatch)
    (hcm : st.currentMatch = some cm) :
    (handleGameStop now mr st).currentMatch = none ∧
    (handleGameStop now mr st).store.matchRows
      = st.store.matchRows
        ++ [⟨st.store.nextMatchId, mr.scoreRed, mr.scoreBlue, (now - cm.startTime) / 1000⟩] ∧
    (handleGameStop now mr st).store.match_players
      = st.store.match_players
        ++ (mr.redPlayers.map (fun pl =>
              ⟨st.store.nextMatchId, pl.auth, 1, (tallyOf cm pl.auth).goals,
                (tallyOf cm pl.auth).assists⟩)
          ++ mr.bluePlayers.map (fun pl =>
              ⟨st.store.nextMatchId, pl.auth, 2, (tallyOf cm pl.auth).goals,
                (tallyOf cm pl.auth).assists⟩)) := by
  unfold handleGameStop
  rw [hcm]
  dsimp only
  refine ⟨rfl, ?_, ?_⟩
  · simp [saveMatch, foldl_ums_matchRows, foldl_ums_nextMatchId]
  · simp only [saveMatch, foldl_ums_match_players, foldl_ums_nextMatchId, List.map_append,
      List.map_map]
    rfl

/-- Witness for the stop-commit characterization: a concrete stop where
only player b is still in the room commits exactly one performance row,
for b, with the snapshot tally. -/
theorem stop_commit_rows_witness :
    leaveDemoSys.tracker.currentMatch
      = some (handleGameStart 0 [⟨"a", "A", 1⟩, ⟨"b", "B", 1⟩]) ∧
    ((handleGameStop 61000 ⟨1, 0, [⟨"b", "B"⟩], []⟩ leaveDemoSys.tracker).currentMatch = none ∧
     (handleGameStop 61000 ⟨1, 0, [⟨"b", "B"⟩], []⟩ leaveDemoSys.tracker).store.matchRows
       = leaveDemoSys.tracker.store.matchRows ++ [⟨1, 1, 0, 61⟩] ∧
     (handleGameStop 61000 ⟨1, 0, [⟨"b", "B"⟩], []⟩ leaveDemoSys.tracker).store.match_players
       = leaveDemoSys.tracker.store.match_players ++ ([⟨1, "b", 1, 0, 0⟩] ++ [])) :=
  ⟨rfl, stop_commit_rows 61000 ⟨1, 0, [⟨"b", "B"⟩], []⟩ leaveDemoSys.tracker
    (handleGameStart 0 [⟨"a", "A", 1⟩, ⟨"b", "B", 1⟩]) rfl⟩

theorem onGameStop_not_running (now : Nat) (rp : List RoomPlayer) (ls : Option Scores)
    (s : SystemState) (h : s.browser.isGameRunning = false) :
    onGameStop now rp ls s = (s, false) := by
  unfold onGameStop
  rw [h]
  simp

/-- Claim C7: when a match stops with neither an authoritative terminal
result captured nor a live score available, the commit is aborted: the
tracker and every table of the store are untouched (no Match row, no
MatchPlayerPerformance row, no career change) and the data-quality
warning is reported. -/
theorem missing_score_abort (now : Nat) (rp : List RoomPlayer) (s : SystemState)
    (hrun : s.browser.isGameRunning = true)
    (hfs : s.browser.finalScores = none) :
    onGameStop now rp none s
      = (⟨{ s.browser with isGameRunning := false }, s.tracker⟩, true) ∧
    (onGameStop now rp none s).1.tracker = s.tracker ∧
    (onGameStop now rp none s).1.tracker.store.matchRows = s.tracker.store.matchRows ∧
    (onGameStop now rp none s).1.tracker.store.match_players = s.tracker.store.match_players ∧
    (onGameStop now rp none s).1.tracker.store.players = s.tracker.store.players := by
  have h1 : onGameStop now rp none s
      = (⟨{ s.browser with isGameRunning := false }, s.tracker⟩, true) := by
    unfold onGameStop
    rw [hrun]
    simp [hfs]
  exact ⟨h1, by rw [h1], by rw [h1], by rw [h1], by rw [h1]⟩

/-- Witness for the missing-score abort at a concrete running state with
no captured result and no live score. -/
theorem missing_score_abort_witness :
    runningNoScoreSys.browser.isGameRunning = true ∧
    runningNoScoreSys.browser.finalScores = none ∧
    (onGameStop 9 [] none runningNoScoreSys
        = (⟨{ runningNoScoreSys.browser with isGameRunning := false },
            runningNoScoreSys.tracker⟩, true) ∧
      (onGameStop 9 [] none runningNoScoreSys).1.tracker = runningNoScoreSys.tracker ∧
      (onGameStop 9 [] none runningNoScoreSys).1.tracker.store.matchRows
        = runningNoScoreSys.tracker.store.matchRows ∧
      (onGameStop 9 [] none runningNoScoreSys).1.tracker.store.match_players
        = runningNoScoreSys.tracker.store.match_players ∧
      (onGameStop 9 [] none runningNoScoreSys).1.tracker.store.players
        = runningNoScoreSys.tracker.store.players) :=
  ⟨rfl, rfl, missing_score_abort 9 [] runningNoScoreSys rfl rfl⟩

/-- Claim C6: once a running match has been stopped, a second stop without
an intervening start is a complete no-op: it performs no further commit
and returns the browser state, working state and store unchanged, with no
warning. -/
theorem stop_idempotent (now now2 : Nat) (rp rp2 : List RoomPlayer)
    (ls ls2 : Option Scores) (s : SystemState)
    (hrun : s.browser.isGameRunning = true) :
    onGameStop now2 rp2 ls2 (onGameStop now rp ls s).1
      = ((onGameStop now rp ls s).1, false) := by
  have h1 : (onGameStop now rp ls s).1.browser.isGameRunning = false := by
    unfold onGameStop
    rw [hrun]
    cases hfs : s.browser.finalScores <;> cases ls <;> simp [hfs]
  exact onGameStop_not_running now2 rp2 ls2 _ h1

/-- Witness for stop idempotence at a concrete running state. -/
theorem stop_idempotent_witness :
    runningDemoSys.browser.isGameRunning = true ∧
    onGameStop 7 [] none (onGameStop 5 [] none runningDemoSys).1
      = ((onGameStop 5 [] none runningDemoSys).1, false) :=
  ⟨rfl, stop_idempotent 5 7 [] [] none none runningDemoSys rfl⟩

/-- Claim C1 counterexample: two touches at t=0 and t=1500 by different
players of the same side satisfy the claim's conditions (1500 ms elapsed
between the two touches, different players, same side), yet when the goal
is processed at now=5000 the code compares now minus the second-to-last
touch timestamp (5000 > 3000) and produces no assister. -/
theorem assist_window_cex :
    ((⟨2, "c", "C", 1, 1500⟩ : Touch).timestamp - (⟨1, "a", "A", 1, 0⟩ : Touch).timestamp
        ≤ ASSIST_TIME_WINDOW) ∧
    (⟨1, "a", "A", 1, 0⟩ : Touch).playerId ≠ (⟨2, "c", "C", 1, 1500⟩ : Touch).playerId ∧
    (⟨1, "a", "A", 1, 0⟩ : Touch).playerTeam = (⟨2, "c", "C", 1, 1500⟩ : Touch).playerTeam ∧
    ([⟨1, "a", "A", 1, 0⟩, ⟨2, "c", "C", 1, 1500⟩] : List Touch).getLast?
      = some ⟨2, "c", "C", 1, 1500⟩ ∧
    (onTeamGoalAttribution 5000 2 [⟨1, "a", "A", 1, 0⟩, ⟨2, "c", "C", 1, 1500⟩]).2 = none := by
  decide

/-- Claim C1 (amended): with at least two touches recorded at the moment a
goal is processed (time now), the second-to-last touch is credited as a
valid assist iff (a) the elapsed time from the second-to-last touch to now
is at most ASSIST_TIME_WINDOW, (b) the two touches are by different
players, and (c) the two touches are by players on the same side;
otherwise no assister is produced. -/
theorem assist_validity (now team : Nat) (touches : List Touch) (lastT secondT : Touch)
    (hl : touches.getLast? = some lastT)
    (hs : touches.dropLast.getLast? = some secondT) :
    (onTeamGoalAttribution now team touches).2 =
      (if now - secondT.timestamp ≤ ASSIST_TIME_WINDOW ∧ secondT.playerId ≠ lastT.playerId
          ∧ secondT.playerTeam = lastT.playerTeam
        then some ⟨secondT.playerAuth, secondT.playerName, false⟩ else none) := by
  have hiff : (decide (now - secondT.timestamp ≤ ASSIST_TIME_WINDOW)
        && !(secondT.playerId == lastT.playerId)
        && (secondT.playerTeam == lastT.playerTeam)) = true
      ↔ (now - secondT.timestamp ≤ ASSIST_TIME_WINDOW ∧ secondT.playerId ≠ lastT.playerId
          ∧ secondT.playerTeam = lastT.playerTeam) := by
    simp [and_assoc]
  unfold onTeamGoalAttribution
  rw [hl]
  dsimp only
  rw [hs]
  dsimp only
  split
  next hb => rw [if_pos (hiff.mp hb)]
  next hb => rw [if_neg (fun hp => hb (hiff.mpr hp))]

/-- Witness for the amended assist rule: a goal processed at now=1600
after touches at t=0 and t=1500 by different players of the same side
credits the earlier toucher with the assist. -/
theorem assist_validity_witness :
    ([⟨1, "a", "A", 1, 0⟩, ⟨2, "c", "C", 1, 1500⟩] : List Touch).getLast?
      = some ⟨2, "c", "C", 1, 1500⟩ ∧
    ([⟨1, "a", "A", 1, 0⟩, ⟨2, "c", "C", 1, 1500⟩] : List Touch).dropLast.getLast?
      = some ⟨1, "a", "A", 1, 0⟩ ∧
    (onTeamGoalAttribution 1600 2 [⟨1, "a", "A", 1, 0⟩, ⟨2, "c", "C", 1, 1500⟩]).2 =
      (if 1600 - (⟨1, "a", "A", 1, 0⟩ : Touch).timestamp ≤ ASSIST_TIME_WINDOW
          ∧ (⟨1, "a", "A", 1, 0⟩ : Touch).playerId ≠ (⟨2, "c", "C", 1, 1500⟩ : Touch).playerId
          ∧ (⟨1, "a", "A", 1, 0⟩ : Touch).playerTeam
              = (⟨2, "c", "C", 1, 1500⟩ : Touch).playerTeam
        then some ⟨(⟨1, "a", "A", 1, 0⟩ : Touch).playerAuth,
          (⟨1, "a", "A", 1, 0⟩ : Touch).playerName, false⟩
        else none) :=
  ⟨by decide, by decide,
    assist_validity 1600 2 [⟨1, "a", "A", 1, 0⟩, ⟨2, "c", "C", 1, 1500⟩]
      ⟨2, "c", "C", 1, 1500⟩ ⟨1, "a", "A", 1, 0⟩ (by decide) (by decide)⟩

theorem find?_bump_assists_goals (l : List (String × PStats)) (a x : String) :
    ((l.map (fun e => if e.1 == a then (e.1, { e.2 with assists := e.2.assists + 1 }) else e)).find?
        (fun e => e.1 == x)).map (fun e => e.2.goals)
      = (l.find? (fun e => e.1 == x)).map (fun e => e.2.goals) := by
  induction l with
  | nil => simp
  | cons e l ih =>
    rw [List.map_cons]
    by_cases hea : e.1 = a
    · have hhead : (if e.1 == a then (e.1, { e.2 with assists := e.2.assists + 1 }) else e)
          = (e.1, { e.2 with assists := e.2.assists + 1 }) := by simp [hea]
      rw [hhead]
      by_cases hex : e.1 = x
      · rw [List.find?_cons_of_pos _ (by simpa using hex),
          List.find?_cons_of_pos _ (by simpa using hex)]
        simp
      · rw [List.find?_cons_of_neg _ (by simpa using hex),
          List.find?_cons_of_neg _ (by simpa using hex)]
        exact ih
    · have hhead : (if e.1 == a then (e.1, { e.2 with assists := e.2.assists + 1 }) else e)
          = e := by simp [hea]
      rw [hhead]
      by_cases hex : e.1 = x
      · rw [List.find?_cons_of_pos _ (by simpa using hex),
          List.find?_cons_of_pos _ (by simpa using hex)]
      · rw [List.find?_cons_of_neg _ (by simpa using hex),
          List.find?_cons_of_neg _ (by simpa using hex)]
        exact ih

theorem lookupStats_incAssist_goals (cm : CurrentMatch) (a x : String) :
    (lookupStats (incAssist cm a).playerStats x).map PStats.goals
      = (lookupStats cm.playerStats x).map PStats.goals := by
  unfold incAssist
  split
  · dsimp only
    unfold lookupStats
    simp only [Option.map_map]
    exact find?_bump_assists_goals cm.playerStats a x
  · rfl

/-- Claim C4: with a non-empty touch history the scorer is the last touch
entry, and the goal is an own goal exactly when the scorer's side differs
from the side credited with the goal; in the own-goal case the scorer's
lifetime own_goals in the Persistent Store is incremented by exactly 1
immediately while their career goals/assists and their in-memory match
goal tally are unchanged, and with a single touch in the history no
assister is credited. -/
theorem own_goal_attribution (now team : Nat) (touches : List Touch) (lastT : Touch)
    (hl : touches.getLast? = some lastT)
    (st : TrackerState) (cm : CurrentMatch) (hcm : st.currentMatch = some cm)
    (p : Player) (hp : getPlayer st.store lastT.playerAuth = some p) :
    (onTeamGoalAttribution now team touches).1
      = some ⟨lastT.playerAuth, lastT.playerName, lastT.playerTeam⟩ ∧
    (isOwnGoal ⟨lastT.playerAuth, lastT.playerName, lastT.playerTeam⟩ team = true
      ↔ lastT.playerTeam ≠ team) ∧
    (lastT.playerTeam ≠ team →
      (∃ q, getPlayer (processGoal now team touches st).store lastT.playerAuth = some q ∧
        q.own_goals = p.own_goals + 1 ∧ q.goals = p.goals ∧ q.assists = p.assists) ∧
      (∃ cm2, (processGoal now team touches st).currentMatch = some cm2 ∧
        (lookupStats cm2.playerStats lastT.playerAuth).map PStats.goals
          = (lookupStats cm.playerStats lastT.playerAuth).map PStats.goals)) ∧
    (touches.length = 1 → (onTeamGoalAttribution now team touches).2 = none) := by
  have hscorer : (onTeamGoalAttribution now team touches).1
      = some ⟨lastT.playerAuth, lastT.playerName, lastT.playerTeam⟩ := by
    unfold onTeamGoalAttribution
    rw [hl]
  refine ⟨hscorer, by simp [isOwnGoal], ?_, ?_⟩
  · intro hog
    have hogb : isOwnGoal ⟨lastT.playerAuth, lastT.playerName, lastT.playerTeam⟩ team = true := by
      simpa [isOwnGoal] using hog
    have hpg : processGoal now team touches st
        = handleTeamGoal team (some ⟨lastT.playerAuth, lastT.playerName, lastT.playerTeam⟩)
            (onTeamGoalAttribution now team touches).2 st := by
      unfold processGoal
      rw [hscorer]
    have hmain : ∀ asst : Option Assister,
        (handleTeamGoal team (some ⟨lastT.playerAuth, lastT.playerName, lastT.playerTeam⟩)
            asst st).store
          = updatePlayerStats st.store lastT.playerAuth ownGoalDelta ∧
        ∃ cm2,
          (handleTeamGoal team (some ⟨lastT.playerAuth, lastT.playerName, lastT.playerTeam⟩)
              asst st).currentMatch = some cm2 ∧
          (lookupStats cm2.playerStats lastT.playerAuth).map PStats.goals
            = (lookupStats cm.playerStats lastT.playerAuth).map PStats.goals := by
      intro asst
      unfold handleTeamGoal
      rw [hcm]
      dsimp only
      rw [hogb]
      simp only [if_true]
      cases asst with
      | none => exact ⟨trivial, cm, rfl, rfl⟩
      | some a =>
        by_cases hself : a.isSelf
        · simp only [hself, if_true]
          exact ⟨trivial, cm, rfl, rfl⟩
        · simp only [hself, if_false, Bool.false_eq_true]
          exact ⟨trivial, incAssist cm a.auth, rfl,
            lookupStats_incAssist_goals cm a.auth lastT.playerAuth⟩
    obtain ⟨hstore, cm2, hcm2, hlk⟩ := hmain (onTeamGoalAttribution now team touches).2
    constructor
    · refine ⟨applyStatsUpdate ownGoalDelta p, ?_, ?_, ?_, ?_⟩
      · rw [hpg, hstore]
        exact getPlayer_update_self st.store lastT.playerAuth ownGoalDelta p hp
      · simp [applyStatsUpdate, ownGoalDelta, emptyUpdate]
      · simp [applyStatsUpdate, ownGoalDelta, emptyUpdate]
      · simp [applyStatsUpdate, ownGoalDelta, emptyUpdate]
    · refine ⟨cm2, ?_, hlk⟩
      rw [hpg]
      exact hcm2
  · intro h1
    obtain ⟨t, ht⟩ : ∃ t, touches = [t] := by
      cases touches with
      | nil => simp at h1
      | cons t ts =>
        cases ts with
        | nil => exact ⟨t, rfl⟩
        | cons t2 ts2 => simp at h1
    subst ht
    rfl

/-- Witness for the own-goal behavior: a single touch by a side-1 player
with the goal credited to side 2 is an own goal; own_goals goes 0 to 1 in
the store at once, the tallies stay untouched and no assister exists. -/
theorem own_goal_attribution_witness :
    ([⟨1, "a", "A", 1, 0⟩] : List Touch).getLast? = some ⟨1, "a", "A", 1, 0⟩ ∧
    ogDemoState.currentMatch = some (handleGameStart 0 [⟨"a", "A", 1⟩]) ∧
    getPlayer ogDemoState.store "a" = some ⟨"a", "A", 0, 0, 0, 0, 0, 0, 0, 0, 0, 0, 0⟩ ∧
    ((onTeamGoalAttribution 100 2 [⟨1, "a", "A", 1, 0⟩]).1 = some ⟨"a", "A", 1⟩ ∧
      (isOwnGoal ⟨"a", "A", 1⟩ 2 = true ↔ (1 : Nat) ≠ 2) ∧
      ((1 : Nat) ≠ 2 →
        (∃ q, getPlayer (processGoal 100 2 [⟨1, "a", "A", 1, 0⟩] ogDemoState).store "a"
            = some q ∧ q.own_goals = 0 + 1 ∧ q.goals = 0 ∧ q.assists = 0) ∧
        (∃ cm2, (processGoal 100 2 [⟨1, "a", "A", 1, 0⟩] ogDemoState).currentMatch = some cm2 ∧
          (lookupStats cm2.playerStats "a").map PStats.goals
            = (lookupStats (handleGameStart 0 [⟨"a", "A", 1⟩]).playerStats "a").map
                PStats.goals)) ∧
      (([⟨1, "a", "A", 1, 0⟩] : List Touch).length = 1 →
        (onTeamGoalAttribution 100 2 [⟨1, "a", "A", 1, 0⟩]).2 = none)) :=
  ⟨by decide, rfl, by decide,
    own_goal_attribution 100 2 [⟨1, "a", "A", 1, 0⟩] ⟨1, "a", "A", 1, 0⟩ (by decide)
      ogDemoState (handleGameStart 0 [⟨"a", "A", 1⟩]) rfl
      ⟨"a", "A", 0, 0, 0, 0, 0, 0, 0, 0, 0, 0, 0⟩ (by decide)⟩

theorem onGameTickLoop_eq_findToucher (ball : Ball) (now : Nat) (touches : List Touch)
    (ps : List PlayerSample) :
    onGameTickLoop ball now touches ps =
      (match findToucher ball ps with
        | none => touches
        | some (p, a) => recordTouch now touches p.id a p.name p.team) := by
  induction ps with
  | nil => rfl
  | cons p rest ih =>
    unfold onGameTickLoop findToucher
    cases h0 : (p.team == 0) with
    | true => simpa [h0] using ih
    | false =>
      cases ha : p.auth with
      | none => simpa [h0, ha] using ih
      | some a =>
        cases hd : p.disc with
        | none => simpa [h0, ha, hd] using ih
        | some d =>
          cases hw : withinRadius ball d with
          | true => simp [h0, ha, hd, hw]
          | false => simpa [h0, ha, hd, hw] using ih

theorem recordTouch_shapes (now : Nat) (touches : List Touch) (pid : Nat)
    (pauth pname : String) (pteam : Nat) :
    recordTouch now touches pid pauth pname pteam = touches ∨
      recordTouch now touches pid pauth pname pteam
        = touches ++ [⟨pid, pauth, pname, pteam, now⟩] ∨
      recordTouch now touches pid pauth pname pteam
        = touches.drop 1 ++ [⟨pid, pauth, pname, pteam, now⟩] := by
  unfold recordTouch
  dsimp only
  split
  · split
    next hlen =>
      right; right
      rw [List.drop_append_of_le_length]
      simp at hlen
      omega
    next hlen => right; left; rfl
  · left; rfl

theorem recordTouch_length_le (now : Nat) (touches : List Touch) (pid : Nat)
    (pauth pname : String) (pteam : Nat) (h5 : touches.length ≤ 5) :
    (recordTouch now touches pid pauth pname pteam).length ≤ 5 := by
  unfold recordTouch
  dsimp only
  split
  · split
    next hlen =>
      simp
      omega
    next hlen =>
      simp at hlen ⊢
      omega
  · exact h5

theorem recordTouch_sorted (now : Nat) (touches : List Touch) (pid : Nat)
    (pauth pname : String) (pteam : Nat)
    (hsort : touches.Pairwise (fun x y => x.timestamp ≤ y.timestamp))
    (hnow : ∀ t ∈ touches, t.timestamp ≤ now) :
    (recordTouch now touches pid pauth pname pteam).Pairwise
      (fun x y => x.timestamp ≤ y.timestamp) := by
  have happ : (touches ++ [(⟨pid, pauth, pname, pteam, now⟩ : Touch)]).Pairwise
      (fun x y => x.timestamp ≤ y.timestamp) := by
    rw [List.pairwise_append]
    refine ⟨hsort, by simp, ?_⟩
    intro x hx y hy
    simp at hy
    subst hy
    exact hnow x hx
  unfold recordTouch
  dsimp only
  split
  · split
    · exact happ.sublist (List.drop_sublist 1 _)
    · exact happ
  · exact hsort

/-- Claim C5: on any sample during a running match the touch history stays
bounded by 5 entries, remains ordered oldest to newest with the oldest
evicted first, and gains at most one entry — recorded for the first
player found within the proximity radius. -/
theorem touch_history_invariants (running : Bool) (ball : Ball) (players : List PlayerSample)
    (now : Nat) (touches : List Touch)
    (h5 : touches.length ≤ 5)
    (hsort : touches.Pairwise (fun x y => x.timestamp ≤ y.timestamp))
    (hnow : ∀ t ∈ touches, t.timestamp ≤ now) :
    (onGameTick running ball players now touches).length ≤ 5 ∧
    (onGameTick running ball players now touches).Pairwise
      (fun x y => x.timestamp ≤ y.timestamp) ∧
    (onGameTick running ball players now touches = touches ∨
      ∃ p a, findToucher ball players = some (p, a) ∧
        (onGameTick running ball players now touches
            = touches ++ [(⟨p.id, a, p.name, p.team, now⟩ : Touch)] ∨
          onGameTick running ball players now touches
            = touches.drop 1 ++ [(⟨p.id, a, p.name, p.team, now⟩ : Touch)])) := by
  cases running with
  | false => exact ⟨h5, hsort, Or.inl rfl⟩
  | true =>
    have heq : onGameTick true ball players now touches
        = onGameTickLoop ball now touches players := rfl
    rw [heq, onGameTickLoop_eq_findToucher]
    cases hf : findToucher ball players with
    | none => exact ⟨h5, hsort, Or.inl rfl⟩
    | some pa =>
      obtain ⟨p, a⟩ := pa
      refine ⟨recordTouch_length_le now touches p.id a p.name p.team h5,
        recordTouch_sorted now touches p.id a p.name p.team hsort hnow, ?_⟩
      rcases recordTouch_shapes now touches p.id a p.name p.team with h | h | h
      · exact Or.inl h
      · exact Or.inr ⟨p, a, rfl, Or.inl h⟩
      · exact Or.inr ⟨p, a, rfl, Or.inr h⟩

/-- Witness for the touch-history invariants: one sample with a single
eligible player in radius appends exactly one touch to the empty history. -/
theorem touch_history_invariants_witness :
    ([] : List Touch).length ≤ 5 ∧
    (∀ t ∈ ([] : List Touch), t.timestamp ≤ 100) ∧
    ((onGameTick true ⟨0, 0⟩ [⟨1, "A", 1, some "a", some ⟨3, 4⟩⟩] 100 []).length ≤ 5 ∧
      (onGameTick true ⟨0, 0⟩ [⟨1, "A", 1, some "a", some ⟨3, 4⟩⟩] 100 []).Pairwise
        (fun x y => x.timestamp ≤ y.timestamp) ∧
      (onGameTick true ⟨0, 0⟩ [⟨1, "A", 1, some "a", some ⟨3, 4⟩⟩] 100 [] = [] ∨
        ∃ p a, findToucher ⟨0, 0⟩ [⟨1, "A", 1, some "a", some ⟨3, 4⟩⟩] = some (p, a) ∧
          (onGameTick true ⟨0, 0⟩ [⟨1, "A", 1, some "a", some ⟨3, 4⟩⟩] 100 []
              = [] ++ [(⟨p.id, a, p.name, p.team, 100⟩ : Touch)] ∨
            onGameTick true ⟨0, 0⟩ [⟨1, "A", 1, some "a", some ⟨3, 4⟩⟩] 100 []
              = ([] : List Touch).drop 1 ++ [(⟨p.id, a, p.name, p.team, 100⟩ : Touch)]))) :=
  ⟨by simp, by simp,
    touch_history_invariants true ⟨0, 0⟩ [⟨1, "A", 1, some "a", some ⟨3, 4⟩⟩] 100 []
      (by simp) (by simp) (by simp)⟩

/-- Witness for the games = wins + losses + draws invariant: a win commit
for a player at 5 games (2W-2L-1D) yields 6 games with 3W-2L-1D. -/
theorem stats_sum_preserved_witness :
    getPlayer invDemoStore "a" = some invDemoPlayer ∧
    invDemoPlayer.games = invDemoPlayer.wins + invDemoPlayer.losses + invDemoPlayer.draws ∧
    (∃ q, getPlayer (updatePlayerMatchStats invDemoStore [] 120 "a" Outcome.win true) "a"
        = some q ∧
      q.games = invDemoPlayer.games + 1 ∧
      ((q.wins = invDemoPlayer.wins + 1 ∧ q.losses = invDemoPlayer.losses
          ∧ q.draws = invDemoPlayer.draws) ∨
        (q.wins = invDemoPlayer.wins ∧ q.losses = invDemoPlayer.losses + 1
          ∧ q.draws = invDemoPlayer.draws) ∨
        (q.wins = invDemoPlayer.wins ∧ q.losses = invDemoPlayer.losses
          ∧ q.draws = invDemoPlayer.draws + 1)) ∧
      q.games = q.wins + q.losses + q.draws) :=
  ⟨by decide, by decide,
    stats_sum_preserved invDemoStore [] 120 "a" Outcome.win true invDemoPlayer
      (by decide) (by decide)⟩

/-- Witness for the purge semantics: a store holding players abctest and
Bob loses exactly the abctest row and its performance rows, with count 1
returned. -/
theorem test_player_purge_witness :
    (purgeDemoDb.store.players.map Player.auth).Nodup ∧
    (likeTestName "abctest" = true ∧
      (("abctest".data.take 7) == "___test".data) = false ∧
      (deleteTestPlayers 5 true purgeDemoDb).1.store.players
        = purgeDemoDb.store.players.filter (fun p => !(likeTestName p.name)) ∧
      (deleteTestPlayers 5 true purgeDemoDb).1.store.match_players
        = purgeDemoDb.store.match_players.filter
            (fun r => !(((purgeDemoDb.store.players.filter
              (fun p => likeTestName p.name)).map Player.auth).contains r.player_auth)) ∧
      (deleteTestPlayers 5 true purgeDemoDb).2
        = some (purgeDemoDb.store.players.filter (fun p => likeTestName p.name)).length ∧
      (purgeDemoDb.store.players.filter (fun p => likeTestName p.name) = [] →
        (deleteTestPlayers 5 true purgeDemoDb).1.store = purgeDemoDb.store ∧
          (deleteTestPlayers 5 true purgeDemoDb).2 = some 0)) :=
  ⟨by decide, test_player_purge 5 purgeDemoDb (by decide)⟩
